import Mathlib

/-!
Shallow embedding of the stock-tank controller (Stock Tank.c).

Port bit constants are taken from the defines in the source.  The controller
state variable is an unsigned int taking values 0..3:
  0 = Idle (quiet state, water off)
  1 = Filling (water on)
  2 = CooldownHysteresis
  3 = FaultWaitingFull (float switch never indicated full)
Timing constants of the spec map to the source as follows:
  CheckIntervalTicks = check_interval = 2, MinOnTicks = 1,
  MaxOnTicks = check_interval <<< 5 = 64, CooldownTicks = check_interval <<< 4 = 32,
  SetPulseDuration = flash_delay, DecayPulseDuration = decay_delay.
A pulse direction is a Bool as in the source: true = on = Open, false = off = Close.
-/

def LED : Nat := 0x08

def Tank_Full : Nat := 0x10

def nSLEEP : Nat := 0x02

def Solenoid_on : Nat := 0x10

def Solenoid_off : Nat := 0x20

def flash_delay : Nat := 0x32c8

def decay_delay : Nat := 0x07d0

def check_interval : Nat := 2

/-- The float switch reading at a given raw P2IN port value: bit P2.4 set means
the tank is full.  The source masks with Tank_Full only in state 0. -/
def floatSwitch (p2in : Nat) : Bool := p2in &&& Tank_Full != 0

/-- Result of one evaluation of the tank state controller: the new state
variable, the new clk_count, and the list of Solenoid_pulse calls issued
during the evaluation (direction true = on/Open, false = off/Close), in order. -/
structure EvalResult where
  state : Nat
  clk_count : Nat
  pulses : List Bool
deriving DecidableEq, Repr

/-- One iteration of the switch statement in main, as a function of the state
variable, clk_count and the raw P2IN port value.  Each case is translated
branch for branch from the source: case 0 resets clk_count whenever
clk_count > check_interval and then tests P2IN masked with Tank_Full; case 1
requires clk_count > 1 and then tests the raw P2IN value (as the source does),
resetting clk_count only on the transition to state 2, and moves to state 3
without a reset when clk_count has reached check_interval <<< 5; case 2 waits
for clk_count to reach check_interval <<< 4; case 3 tests the raw P2IN value.
States other than 0..3 fall through the switch unchanged. -/
def evaluate (state : Nat) (clk_count : Nat) (p2in : Nat) : EvalResult :=
  match state with
  | 0 =>
      if clk_count > check_interval then
        if (p2in &&& Tank_Full) = 0 then ⟨1, 0, [true]⟩
        else ⟨0, 0, []⟩
      else ⟨0, clk_count, []⟩
  | 1 =>
      if clk_count > 1 then
        if p2in ≠ 0 then ⟨2, 0, [false]⟩
        else if clk_count ≥ (check_interval <<< 5) then ⟨3, clk_count, [false]⟩
        else ⟨1, clk_count, []⟩
      else ⟨1, clk_count, []⟩
  | 2 =>
      if clk_count ≥ (check_interval <<< 4) then ⟨0, 0, []⟩
      else ⟨2, clk_count, []⟩
  | 3 =>
      if p2in ≠ 0 then ⟨0, 0, []⟩
      else ⟨3, clk_count, []⟩
  | s => ⟨s, clk_count, []⟩

/-- The watchdog interval interrupt handler increments clk_count, a 16-bit
unsigned int, so the increment wraps modulo 2 ^ 16. -/
def watchdog_timer (clk_count : Nat) : Nat := (clk_count + 1) % 65536

/-- The output port registers P1OUT and P2OUT (8-bit each). -/
structure Ports where
  p1out : Nat
  p2out : Nat
deriving DecidableEq, Repr

/-- One timed phase of a solenoid pulse: the port values held while the
one-shot timer with the given delay runs. -/
structure Phase where
  p1out : Nat
  p2out : Nat
  delay : Nat
deriving DecidableEq, Repr

/-- Solenoid_pulse translated line by line: set the direction select bit on
P1OUT, set LED + nSLEEP on P2OUT, sleep for flash_delay; then the fast-decay
write P1OUT &= ~Solenoid_off + ~Solenoid_on, whose right-hand side is the
16-bit int -50 = 0xFFCE, so on the 8-bit port it ands with 0xCE (clearing
bits 0, 4 and 5, not only the two select bits); sleep for decay_delay; then
P2OUT &= ~LED + ~nSLEEP, whose right-hand side is -12 = 0xFFF4, so it ands
with 0xF4 (clearing bits 0, 1 and 3).  The result is the list of the two
timed phases followed by the final port state at return. -/
def Solenoid_pulse (dir : Bool) (ports : Ports) : List Phase × Ports :=
  let p1a := if dir then ports.p1out ||| Solenoid_on else ports.p1out ||| Solenoid_off
  let p2a := ports.p2out ||| (LED + nSLEEP)
  let p1b := p1a &&& 0xCE
  let p2b := p2a &&& 0xF4
  ([⟨p1a, p2a, flash_delay⟩, ⟨p1b, p2a, decay_delay⟩], ⟨p1b, p2b⟩)

/-- The two timed phases of a pulse call. -/
def pulsePhases (dir : Bool) (ports : Ports) : List Phase :=
  (Solenoid_pulse dir ports).1

/-- The port state at return from a pulse call. -/
def pulseFinal (dir : Bool) (ports : Ports) : Ports :=
  (Solenoid_pulse dir ports).2

/-- State of the whole system between two wake-ups of the main loop: the
state variable, clk_count and the two output port registers. -/
structure SysState where
  state : Nat
  clk_count : Nat
  ports : Ports
deriving DecidableEq, Repr

/-- Apply the port effect of a list of pulse calls in order. -/
def applyPulses (ports : Ports) (ds : List Bool) : Ports :=
  ds.foldl (fun pp d => (Solenoid_pulse d pp).2) ports

/-- One wake cycle: the watchdog interrupt increments clk_count and wakes the
main loop, which runs one iteration of the switch statement with the current
raw P2IN value and performs the pulse calls the iteration issues. -/
def sysStep (s : SysState) (p2in : Nat) : SysState :=
  let clk := watchdog_timer s.clk_count
  let r := evaluate s.state clk p2in
  ⟨r.state, r.clk_count, applyPulses s.ports r.pulses⟩

/-- Port state right after the port initialization in main:
P1OUT = 0 and P2OUT = LED. -/
def initPorts : Ports := ⟨0, LED⟩

/-- System state when the main loop is first entered: state 0, clk_count 0,
and the ports after the initial Solenoid_pulse(off) issued by main. -/
def initSys : SysState :=
  ⟨0, 0, (Solenoid_pulse false initPorts).2⟩

/-- System states reachable by the main loop from initialization, for any
sequence of raw P2IN values observed at the successive wake-ups. -/
inductive Reach : SysState → Prop where
  | init : Reach initSys
  | step : ∀ s p2in, Reach s → Reach (sysStep s p2in)

/-- CLAIM C1: in state 0 (Idle) the controller moves to state 1 (Filling) with
clk_count reset to 0 and a single pulse(on) issued exactly when
clk_count > check_interval and the float switch reads false; when
clk_count ≤ check_interval nothing changes and no pulse is issued. -/
theorem C1_idle_transition (clk p2in : Nat) :
    (evaluate 0 clk p2in = ⟨1, 0, [true]⟩ ↔
      check_interval < clk ∧ floatSwitch p2in = false) ∧
    (clk ≤ check_interval → evaluate 0 clk p2in = ⟨0, clk, []⟩) := by
  constructor
  · unfold evaluate floatSwitch
    split_ifs with h1 h2 <;>
      simp_all [EvalResult.mk.injEq, check_interval]
  · intro h
    unfold evaluate
    rw [if_neg (by omega)]

/-- Witness for C1 at clk = 3, p2in = 0 and at clk = 1. -/
theorem C1_idle_transition_witness :
    evaluate 0 3 0 = ⟨1, 0, [true]⟩ ∧ evaluate 0 1 7 = ⟨0, 1, []⟩ :=
  ⟨(C1_idle_transition 3 0).1.mpr (by decide), (C1_idle_transition 1 7).2 (by decide)⟩

/-- CLAIM C2 counterexample: in state 1 (Filling) the source tests the whole
P2IN port, not the Tank_Full bit.  At clk_count = 2 with P2IN = 0x08 (the LED
bit set, float switch low) the controller closes the valve and enters state 2
although the float switch reads false. -/
theorem C2_raw_port_counterexample :
    evaluate 1 2 8 = ⟨2, 0, [false]⟩ ∧ floatSwitch 8 = false := by decide

/-- CLAIM C2 as amended: restricted to port values where only the float-switch
bit can be set (P2IN = 0 or Tank_Full, as holds in the running system where
every other P2 pin is a driven-low output at evaluation time), state 1 moves
to state 2 with clk_count reset and one pulse(off) exactly when clk_count > 1
and the switch reads true, and with clk_count ≤ 1 nothing changes and no
pulse is issued. -/
theorem C2_filling_close (clk p2in : Nat) (hp : p2in = 0 ∨ p2in = Tank_Full) :
    (evaluate 1 clk p2in = ⟨2, 0, [false]⟩ ↔ 1 < clk ∧ floatSwitch p2in = true) ∧
    (clk ≤ 1 → evaluate 1 clk p2in = ⟨1, clk, []⟩) := by
  rcases hp with h | h <;> subst h <;> constructor
  · unfold evaluate floatSwitch Tank_Full check_interval
    split_ifs <;> simp_all
  · intro hc
    interval_cases clk <;> decide
  · unfold evaluate floatSwitch Tank_Full check_interval
    split_ifs <;> simp_all
  · intro hc
    interval_cases clk <;> decide

/-- Witness for C2 at clk = 5, p2in = Tank_Full and at clk = 1. -/
theorem C2_filling_close_witness :
    evaluate 1 5 16 = ⟨2, 0, [false]⟩ ∧ evaluate 1 1 16 = ⟨1, 1, []⟩ :=
  ⟨(C2_filling_close 5 16 (Or.inr rfl)).1.mpr (by decide),
   (C2_filling_close 1 16 (Or.inr rfl)).2 (by decide)⟩

/-- CLAIM C3 counterexample: with the float switch reading false but another
P2IN bit set (P2IN = 0x08) and clk_count = 3, far below
MaxOnTicks = check_interval <<< 5 = 64, the controller neither stays in
Filling nor enters the fault state: it leaves Filling for state 2, because
the source tests the whole P2IN port. -/
theorem C3_raw_port_counterexample :
    floatSwitch 8 = false ∧ (3 : Nat) < check_interval <<< 5 ∧
    evaluate 1 3 8 ≠ ⟨1, 3, []⟩ ∧ evaluate 1 3 8 ≠ ⟨3, 3, [false]⟩ := by decide

/-- CLAIM C3 as amended: when P2IN reads 0 at an evaluation in state 1
(float switch false and all other port bits low, the running-system case),
the controller enters state 3 (FaultWaitingFull) with one pulse(off) and with
clk_count left unchanged exactly when clk_count has reached
check_interval <<< 5 = 64; at every smaller clk_count it stays in state 1
with clk_count unchanged and no pulse. -/
theorem C3_fault_timeout (clk : Nat) :
    (evaluate 1 clk 0 = ⟨3, clk, [false]⟩ ↔ check_interval <<< 5 ≤ clk) ∧
    (clk < check_interval <<< 5 → evaluate 1 clk 0 = ⟨1, clk, []⟩) := by
  constructor
  · unfold evaluate check_interval
    split_ifs <;> simp_all <;> omega
  · intro hc
    have h64 : clk < 64 := by simpa using hc
    interval_cases clk <;> decide

/-- Witness for C3 at clk = 64 and clk = 63. -/
theorem C3_fault_timeout_witness :
    evaluate 1 64 0 = ⟨3, 64, [false]⟩ ∧ evaluate 1 63 0 = ⟨1, 63, []⟩ :=
  ⟨(C3_fault_timeout 64).1.mpr (by decide), (C3_fault_timeout 63).2 (by decide)⟩

/-- CLAIM C4 counterexample: in state 3 (FaultWaitingFull) the source tests
the whole P2IN port, so with P2IN = 0x08 (float switch low) the controller
returns to state 0 and resets clk_count although the switch reads false. -/
theorem C4_raw_port_counterexample :
    evaluate 3 7 8 = ⟨0, 0, []⟩ ∧ floatSwitch 8 = false := by decide

/-- CLAIM C4 as amended: restricted to port values where only the float-switch
bit can be set (P2IN = 0 or Tank_Full), state 3 returns to state 0 with
clk_count reset exactly when the switch reads true, stays unchanged while the
switch reads false, and never issues a pulse. -/
theorem C4_fault_recovery (clk p2in : Nat) (hp : p2in = 0 ∨ p2in = Tank_Full) :
    (evaluate 3 clk p2in = ⟨0, 0, []⟩ ↔ floatSwitch p2in = true) ∧
    (floatSwitch p2in = false → evaluate 3 clk p2in = ⟨3, clk, []⟩) ∧
    (evaluate 3 clk p2in).pulses = [] := by
  rcases hp with h | h <;> subst h <;>
    refine ⟨?_, ?_, ?_⟩ <;> simp [evaluate, floatSwitch, Tank_Full]

/-- Witness for C4 at clk = 9 with p2in = Tank_Full and p2in = 0. -/
theorem C4_fault_recovery_witness :
    evaluate 3 9 16 = ⟨0, 0, []⟩ ∧ evaluate 3 9 0 = ⟨3, 9, []⟩ :=
  ⟨(C4_fault_recovery 9 16 (Or.inr rfl)).1.mpr (by decide),
   (C4_fault_recovery 9 0 (Or.inl rfl)).2.1 (by decide)⟩

/-- Helper: oring a mask in and then masking with it yields the mask. -/
theorem or_and_mask (x m : Nat) : (x ||| m) &&& m = m := by
  apply Nat.eq_of_testBit_eq
  intro i
  rw [Nat.testBit_land, Nat.testBit_lor]
  cases h : m.testBit i <;> simp [h]

/-- Helper: masking with two disjoint masks in sequence yields zero. -/
theorem and_and_disjoint (x a b : Nat) (h : a &&& b = 0) : (x &&& a) &&& b = 0 := by
  rw [Nat.land_assoc, h, Nat.and_zero]

/-- Helper: oring a mask in sets every bit of the mask. -/
theorem or_testBit (x m i : Nat) (h : m.testBit i = true) : (x ||| m).testBit i = true := by
  rw [Nat.testBit_lor, h, Bool.or_true]

/-- CLAIM C5: every call of Solenoid_pulse, for both directions and from any
entry port state (so also back-to-back calls), performs exactly two timed
phases in order: first the drive phase of duration flash_delay, with the
select bit of the given direction driven and LED + nSLEEP asserted, then the
fast-decay phase of duration decay_delay with both select bits released and
the bridge still enabled; at return LED and nSLEEP are both de-asserted. -/
theorem C5_pulse_two_phases (dir : Bool) (ports : Ports) :
    (pulsePhases dir ports).map Phase.delay = [flash_delay, decay_delay] ∧
    ((pulsePhases dir ports).getD 0 ⟨0, 0, 0⟩).p1out.testBit (if dir then 4 else 5) = true ∧
    ((pulsePhases dir ports).getD 0 ⟨0, 0, 0⟩).p2out &&& (LED + nSLEEP) = LED + nSLEEP ∧
    ((pulsePhases dir ports).getD 1 ⟨0, 0, 0⟩).p1out &&& (Solenoid_on ||| Solenoid_off) = 0 ∧
    ((pulsePhases dir ports).getD 1 ⟨0, 0, 0⟩).p2out &&& (LED + nSLEEP) = LED + nSLEEP ∧
    (pulseFinal dir ports).p2out &&& (LED + nSLEEP) = 0 := by
  cases dir <;>
    refine ⟨rfl, ?_, ?_, ?_, ?_, ?_⟩ <;>
      simp only [pulsePhases, pulseFinal, Solenoid_pulse, List.getD, List.get?,
        Option.getD, Bool.false_eq_true, if_false, if_true, ite_true, ite_false] <;>
      first
      | (apply or_testBit; decide)
      | apply or_and_mask
      | (apply and_and_disjoint; decide)

/-- CLAIM C6 counterexample: clk_count is a 16-bit unsigned int, so the
interval interrupt handler does not always change it by adding exactly 1: at
65535 the increment wraps to 0, which is also a reset to 0 outside the
transitions of the state table. -/
theorem C6_wrap_counterexample : watchdog_timer 65535 ≠ 65535 + 1 := by decide

/-- CLAIM C6 as amended: the interrupt handler increments clk_count by
exactly 1 modulo 2 ^ 16 (wrapping from 65535 to 0), and an evaluation of the
controller sets clk_count to 0 exactly at the transitions of the state table
(the state 0 interval boundary in both switch cases, the transition from
state 1 to state 2, from state 2 to state 0, and from state 3 to state 0) and
leaves it unchanged everywhere else. -/
theorem C6_reset_discipline (c s clk p2in : Nat) :
    watchdog_timer c = (c + 1) % 65536 ∧
    (evaluate s clk p2in).clk_count =
      (if (s = 0 ∧ check_interval < clk) ∨
          (s = 1 ∧ (evaluate s clk p2in).state = 2) ∨
          (s = 2 ∧ (evaluate s clk p2in).state = 0) ∨
          (s = 3 ∧ (evaluate s clk p2in).state = 0)
        then 0 else clk) := by
  refine ⟨rfl, ?_⟩
  rcases s with _ | (_ | (_ | (_ | s))) <;>
    (simp only [evaluate]; split_ifs <;> simp_all <;> omega)

/-- CLAIM C7: no evaluation of the controller, from any state and for any
clk_count and any raw P2IN value, calls Solenoid_pulse more than once. -/
theorem C7_at_most_one_pulse (s clk p2in : Nat) :
    (evaluate s clk p2in).pulses.length ≤ 1 := by
  rcases s with _ | (_ | (_ | (_ | s))) <;>
    simp only [evaluate] <;>
    first
    | (split_ifs <;> simp)
    | simp

/-- CLAIM C8: in state 2 (CooldownHysteresis) the controller returns to
state 0 with clk_count reset exactly when clk_count has reached
check_interval <<< 4 = 32, for every raw P2IN value; below that threshold
state and clk_count are unchanged; and no evaluation in state 2 issues a
pulse. -/
theorem C8_cooldown (clk p2in : Nat) :
    (evaluate 2 clk p2in = ⟨0, 0, []⟩ ↔ check_interval <<< 4 ≤ clk) ∧
    (clk < check_interval <<< 4 → evaluate 2 clk p2in = ⟨2, clk, []⟩) ∧
    (evaluate 2 clk p2in).pulses = [] := by
  refine ⟨?_, ?_, ?_⟩
  · unfold evaluate
    split_ifs <;> simp_all <;> omega
  · intro hc
    have h32 : clk < 32 := by simpa using hc
    show (if clk ≥ check_interval <<< 4 then (⟨0, 0, []⟩ : EvalResult) else ⟨2, clk, []⟩) =
      ⟨2, clk, []⟩
    rw [if_neg (by simp [check_interval]; exact h32)]
  · unfold evaluate
    split_ifs <;> simp_all

/-- Witness for C8 at clk = 32 and clk = 31 with a nonzero P2IN. -/
theorem C8_cooldown_witness :
    evaluate 2 32 5 = ⟨0, 0, []⟩ ∧ evaluate 2 31 5 = ⟨2, 31, []⟩ :=
  ⟨(C8_cooldown 32 5).1.mpr (by decide), (C8_cooldown 31 5).2.1 (by decide)⟩

/-- CLAIM C9 evidence: the fast-decay and disable writes in Solenoid_pulse
use the masks ~Solenoid_off + ~Solenoid_on = 0xFFCE and ~LED + ~nSLEEP =
0xFFF4, a plus where an and was meant, so the call also clears bit 0 of each
port.  Called with P1OUT = 1 and P2OUT = 1 (only bits P1.0 and P2.0 set,
which the claim says the call must leave unchanged), it returns with both
ports equal to 0. -/
theorem C9_extra_bits_cleared :
    pulseFinal true ⟨1, 1⟩ = ⟨0, 0⟩ ∧
    (1 : Nat).testBit 0 = true ∧ (0 : Nat).testBit 0 = false := by decide

/-- Helper: an evaluation issues no pulse, one pulse(on), or one pulse(off). -/
theorem evaluate_pulses_cases (s clk p2in : Nat) :
    (evaluate s clk p2in).pulses = [] ∨ (evaluate s clk p2in).pulses = [true] ∨
    (evaluate s clk p2in).pulses = [false] := by
  rcases s with _ | (_ | (_ | (_ | s))) <;>
    simp only [evaluate] <;>
    first
    | (split_ifs <;> simp)
    | simp

/-- Helper invariant: in every reachable system state both output port
registers read 0 between wake-ups; in particular main never leaves a drive
bit set while sleeping. -/
theorem reach_ports_zero {s : SysState} (h : Reach s) : s.ports = ⟨0, 0⟩ := by
  induction h with
  | init => decide
  | step s p2in hr ih =>
      show (applyPulses s.ports (evaluate s.state (watchdog_timer s.clk_count) p2in).pulses) =
        ⟨0, 0⟩
      rw [ih]
      rcases evaluate_pulses_cases s.state (watchdog_timer s.clk_count) p2in with
        h | h | h <;> rw [h] <;> decide

/-- CLAIM C10: from every reachable system state, for both directions, a
pulse call starts with both select bits P1.4 and P1.5 low, holds exactly the
select bit of its direction during the drive phase, and has both select bits
low in the fast-decay phase and at return; the same holds for the initial
pulse(off) that main issues from the freshly initialized ports.  So the two
opposing bridge inputs are never driven at the same time. -/
theorem C10_no_shoot_through (s : SysState) (h : Reach s) (dir : Bool) :
    s.ports.p1out &&& (Solenoid_on ||| Solenoid_off) = 0 ∧
    ((pulsePhases dir s.ports).getD 0 ⟨0, 0, 0⟩).p1out &&& (Solenoid_on ||| Solenoid_off) =
      (if dir then Solenoid_on else Solenoid_off) ∧
    ((pulsePhases dir s.ports).getD 1 ⟨0, 0, 0⟩).p1out &&& (Solenoid_on ||| Solenoid_off) = 0 ∧
    (pulseFinal dir s.ports).p1out &&& (Solenoid_on ||| Solenoid_off) = 0 ∧
    initPorts.p1out &&& (Solenoid_on ||| Solenoid_off) = 0 ∧
    ((pulsePhases false initPorts).getD 0 ⟨0, 0, 0⟩).p1out &&& (Solenoid_on ||| Solenoid_off) =
      Solenoid_off ∧
    ((pulsePhases false initPorts).getD 1 ⟨0, 0, 0⟩).p1out &&& (Solenoid_on ||| Solenoid_off) = 0 ∧
    (pulseFinal false initPorts).p1out &&& (Solenoid_on ||| Solenoid_off) = 0 := by
  have hp := reach_ports_zero h
  rw [hp]
  cases dir <;> decide

/-- Witness for C10 at the initial system state with direction on. -/
theorem C10_no_shoot_through_witness :
    initSys.ports.p1out &&& (Solenoid_on ||| Solenoid_off) = 0 :=
  (C10_no_shoot_through initSys Reach.init true).1
